import Mathlib

/-!
Verification of the paragraph classifier, template registry and layout
renderer of the document-formatting service.

Strings are modelled as `List Char` (`Str`); every JavaScript string
operation used by the source (`includes`, `startsWith`, `endsWith`,
`trim`, the specific regular-expression tests) is reimplemented as an
executable Lean function over that representation.
-/

abbrev Str := List Char

/-- The JavaScript `\s` whitespace class (the members that can occur in
BMP text): space, tab, LF, VT, FF, CR, NBSP, ogham space, the U+2000
range, line/paragraph separators, NNBSP, MMSP, ideographic space, BOM. -/
def isJsSpace (c : Char) : Bool :=
  c = ' ' || c = '\t' || c = '\n' || c = '\r' ||
  c.toNat = 11 || c.toNat = 12 || c.toNat = 0xa0 || c.toNat = 0x1680 ||
  (0x2000 ≤ c.toNat && c.toNat ≤ 0x200a) || c.toNat = 0x2028 || c.toNat = 0x2029 ||
  c.toNat = 0x202f || c.toNat = 0x205f || c.toNat = 0x3000 || c.toNat = 0xfeff

/-- JavaScript `String.prototype.trim`. -/
def trimStr (s : Str) : Str :=
  ((s.dropWhile isJsSpace).reverse.dropWhile isJsSpace).reverse

/-- `hasPrefixStr s p` : `p` is a prefix of `s` (JS `startsWith`). -/
def hasPrefixStr : Str → Str → Bool
  | _, [] => true
  | [], _ :: _ => false
  | c :: s, d :: t => c = d && hasPrefixStr s t

/-- `strContains needle s` : `needle` occurs as a contiguous substring of
`s` (JS `String.prototype.includes`). -/
def strContains (needle : Str) : Str → Bool
  | [] => hasPrefixStr [] needle
  | c :: rest => hasPrefixStr (c :: rest) needle || strContains needle rest

/-- `hasSuffixStr s t` : `t` is a suffix of `s` (JS `endsWith`). -/
def hasSuffixStr (s t : Str) : Bool :=
  hasPrefixStr s.reverse t.reverse

/-- The remainder of `s` after the first (leftmost) occurrence of
`needle`, or `none` when `needle` does not occur. -/
def afterFirst (needle : Str) : Str → Option Str
  | [] => if hasPrefixStr [] needle then some [] else none
  | c :: rest =>
    if hasPrefixStr (c :: rest) needle then some ((c :: rest).drop needle.length)
    else afterFirst needle rest

/-- The test of a regex of the shape `.*A.*B.*` : some occurrence of `A`
is followed (disjointly) by an occurrence of `B`; equivalently `B` occurs
after the leftmost occurrence of `A`. -/
def containsThen (a b s : Str) : Bool :=
  match afterFirst a s with
  | some r => strContains b r
  | none => false

/-- Last character of `s` belongs to `cs` (test of a regex `[..]$`). -/
def lastCharIn (cs : List Char) (s : Str) : Bool :=
  match s.getLast? with
  | some c => cs.contains c
  | none => false

/-- After a `图` character, skip `\s*` and test the next character
(used for the `图\s*X` regex tests). -/
def classAfterWs (isC : Char → Bool) (s : Str) : Bool :=
  match s.dropWhile isJsSpace with
  | [] => false
  | d :: _ => isC d

/-- Unanchored test of `图\s*X` where `X` is a character class: somewhere
in `s`, a `图` is followed by optional whitespace and a class character. -/
def tuThenClass (isC : Char → Bool) : Str → Bool
  | [] => false
  | c :: rest => (c = '图' && classAfterWs isC rest) || tuThenClass isC rest

/-- The CJK numerals `一` … `九`. -/
def isCjkNumeral (c : Char) : Bool :=
  c = '一' || c = '二' || c = '三' || c = '四' || c = '五' ||
  c = '六' || c = '七' || c = '八' || c = '九'

/-- Anchored test of `^\d+[、.]` (also `^\d+[\.\、]`): one or more ASCII
digits followed by `、` or `.`. -/
def digitsThenMark (s : Str) : Bool :=
  match s with
  | [] => false
  | c :: _ =>
    c.isDigit &&
    (match s.dropWhile Char.isDigit with
     | d :: _ => d = '、' || d = '.'
     | [] => false)

/-- The characters matched by an (unanchored) regex `.` — anything but a
line terminator. -/
def notLineTerminator (c : Char) : Bool :=
  !(c.toNat = 10 || c.toNat = 13 || c.toNat = 0x2028 || c.toNat = 0x2029)

/-- Test of `\s*.+` at the start of the string (continuation of a
whitespace run followed by at least one `.`-matchable character). -/
def dotAfterWs : Str → Bool
  | [] => false
  | c :: rest => notLineTerminator c || (isJsSpace c && dotAfterWs rest)

/-- Character class `[\d一二三四五六七八九]` of the `tuCaptionPattern`. -/
def tuCaptionClass (c : Char) : Bool :=
  c.isDigit || isCjkNumeral c

/-- Anchored test of `^图[\d一二三四五六七八九]+[\s　]+.+` (the
`tuCaptionPattern` of `_isImagePlaceholder`). -/
def tuCaptionPattern (s : Str) : Bool :=
  match s with
  | [] => false
  | c :: rest =>
    c = '图' &&
    (match rest with
     | [] => false
     | d :: _ =>
       tuCaptionClass d &&
       (match rest.dropWhile tuCaptionClass with
        | [] => false
        | e :: t => isJsSpace e && dotAfterWs t))

/-- Scan for a character of the class `[展|显]` immediately followed by
`示` (for the regex `.*图片.*[展|显]示.*`). -/
def classShiScan : Str → Bool
  | [] => false
  | c :: rest =>
    ((c = '展' || c = '|' || c = '显') &&
      (match rest with
       | d :: _ => d = '示'
       | [] => false)) ||
    classShiScan rest

/-- Test of `.*图片.*[展|显]示.*` : after the first `图片`, some class
character followed by `示` occurs. -/
def tupianShiPattern (s : Str) : Bool :=
  match afterFirst ("图片").data s with
  | some r => classShiScan r
  | none => false

/-! ### Paragraph classifier (`documentParser.js`) -/

inductive SectionType where
  | text
  | subtitle
  | image
deriving DecidableEq

/-- One classified content section (type, content, 1-based position). -/
structure Section where
  type : SectionType
  content : Str
  position : Nat
deriving DecidableEq

/-- The image-placeholder recogniser `_isImagePlaceholder`: returns the
pair `(isImage, caption)`, checking the rules in source order. -/
def isImagePlaceholder (text : Str) : Bool × Str :=
  let imageMarkers : List Str :=
    (["[图片]", "[image]", "[img]", "【图片】", "【image】", "【img】"]).map String.data
  let hasImageMarker := imageMarkers.any (fun m => strContains m text)
  if hasImageMarker then (true, text)
  else
    let hasTuWord := strContains (("图").data) text
    let matchesNumberPattern :=
      tuThenClass Char.isDigit text || tuThenClass isCjkNumeral text ||
      tuThenClass Char.isAlpha text
    if hasTuWord && matchesNumberPattern then (true, text)
    else
      let isImageOnly := trimStr text = ("图片").data || trimStr text = ("图像").data
      if isImageOnly then (true, text)
      else
        let imageCaptionKeywords : List Str :=
          (["注释", "说明", "备注", "描述", "caption", "图注", "配图", "插图"]).map String.data
        let hasImageCaptionKeyword := imageCaptionKeywords.any (fun k => strContains k text)
        if hasImageCaptionKeyword then (true, text)
        else
          let isImageCaptionFormat := digitsThenMark (trimStr text)
          if isImageCaptionFormat then (true, text)
          else
            let matchesImageDescription :=
              containsThen (("图").data) (("展示").data) text ||
              containsThen (("图").data) (("显示").data) text ||
              strContains (("如图").data) text ||
              tupianShiPattern text ||
              strContains (("插图").data) text ||
              strContains (("配图").data) text
            if matchesImageDescription then (true, text)
            else
              let startsWithTu := hasPrefixStr (trimStr text) (("图").data)
              if startsWithTu then (true, text)
              else if hasTuWord && tuCaptionPattern (trimStr text) then (true, text)
              else (false, [])

/-- The fixed subtitle keyword list of `_isSubtitle` (source order,
duplicates kept). -/
def subtitleKeywords : List Str :=
  (["介绍", "概述", "总结", "结论", "方法", "步骤", "注意", "要点",
    "背景", "目的", "意义", "问题", "分析", "讨论", "结果", "建议",
    "第一章", "第二章", "第三章", "第四章", "第五章", "第六章", "第七章", "第八章", "第九章",
    "一、", "二、", "三、", "四、", "五、", "六、", "七、", "八、", "九、",
    "首先", "其次", "最后", "第一", "第二", "第三",
    "助力", "陪伴", "成长", "课堂", "教学", "学习", "教育",
    "特点", "优势", "内容", "展示", "案例", "总结",
    "志愿", "服务", "活动", "实践", "体验", "中心", "之旅"]).map String.data

/-- The body-opening word list of `_isSubtitle`. -/
def bodyStartWords : List Str :=
  (["我们", "他们", "她们", "它", "这个", "这些", "那些", "那么", "因为", "所以",
    "但是", "然而", "虽然", "如果", "为了", "由于", "通过", "根据", "对于",
    "今天", "昨天", "明天", "现在", "目前", "已经", "正在", "将会"]).map String.data

/-- The special subtitle phrase patterns `.*A.*B.*` of `_isSubtitle`,
as their (A, B) pairs. -/
def specialSubtitlePatterns : List (Str × Str) :=
  ([("助力", "成长"), ("课堂", "教学"), ("学习", "教育"), ("特点", "优势"),
    ("内容", "展示"), ("志愿", "能力"), ("特教", "中心")]).map
    (fun p => (p.1.data, p.2.data))

/-- Anchored test of `^(第?[一二三四五六七八九十章]+|[\d]+[、.])` used as
`hasChapterIndicator`. -/
def chapterClass (c : Char) : Bool :=
  isCjkNumeral c || c = '十' || c = '章'

def chapterIndicator (s : Str) : Bool :=
  (match s with
   | [] => false
   | c :: rest =>
     if c = '第' then
       (match rest with
        | [] => false
        | d :: _ => chapterClass d)
     else chapterClass c) ||
  digitsThenMark s

/-- The subtitle heuristic `_isSubtitle(text, sections)`; `sections` is
the list of sections already emitted (its last element is the previously
emitted section). -/
def isSubtitle (text : Str) (sections : List Section) : Bool :=
  let shortText := text.length ≤ 30
  let hasSubtitleKeyword := subtitleKeywords.any (fun k => strContains k text)
  let matchesSpecialPattern :=
    specialSubtitlePatterns.any (fun p => containsThen p.1 p.2 text)
  let startsWithBodyWord := bodyStartWords.any (fun w => hasPrefixStr text w)
  let subtitleEndings : List Str := (["：", ":", "】", "）", ")"]).map String.data
  let endsWithSubtitleEnding :=
    subtitleEndings.any (fun e => hasSuffixStr (trimStr text) e)
  let endsWithColon := lastCharIn ['：', ':'] (trimStr text)
  let endsWithBodyPunctuation := lastCharIn ['，', '。', '；', '！', '？'] (trimStr text)
  let hasChapterIndicator := chapterIndicator (trimStr text)
  let isParallelStructure :=
    ((strContains (['，']) text || strContains (['、']) text || strContains ([',']) text) &&
      (strContains (("志愿").data) text || strContains (("服务").data) text ||
       strContains (("活动").data) text || strContains (("中心").data) text ||
       strContains (("之旅").data) text))
  let hasPreviousSubtitle :=
    match sections.getLast? with
    | some s => s.type = SectionType.subtitle
    | none => false
  let isListItemStyle := hasPreviousSubtitle && !startsWithBodyWord && text.length ≤ 20
  shortText &&
    (hasSubtitleKeyword || matchesSpecialPattern || endsWithSubtitleEnding ||
     endsWithColon || hasChapterIndicator || isListItemStyle || isParallelStructure) &&
    !endsWithBodyPunctuation

/-- The section built for one (trimmed, non-empty) paragraph: image rules
first, then the subtitle heuristic, else body text — the branch order of
`_analyzeContentStructure`. -/
def classifySection (paragraph : Str) (sections : List Section) (pos : Nat) : Section :=
  let imageInfo := isImagePlaceholder paragraph
  if imageInfo.1 then { type := SectionType.image, content := imageInfo.2, position := pos }
  else if isSubtitle paragraph sections then
    { type := SectionType.subtitle, content := paragraph, position := pos }
  else { type := SectionType.text, content := paragraph, position := pos }

/-- The classification loop of `_analyzeContentStructure`: walk the
paragraphs in order, trim each, skip blanks, and append one section per
remaining paragraph while incrementing the position counter. -/
def analyzeGo : List Str → List Section → Nat → List Section
  | [], sections, _ => sections
  | p :: rest, sections, pos =>
    let paragraph := trimStr p
    if paragraph = [] then analyzeGo rest sections pos
    else analyzeGo rest (sections ++ [classifySection paragraph sections pos]) (pos + 1)

/-- The classifier on the title-stripped paragraph list. -/
def classifyParagraphs (paragraphs : List Str) : List Section :=
  analyzeGo paragraphs [] 1

/-- `_analyzeContentStructure(paragraphs)`: the loop starts at index 1,
skipping the title paragraph. -/
def analyzeContentStructure (paragraphs : List Str) : List Section :=
  classifyParagraphs (paragraphs.drop 1)

/-! ### Classifier theorems -/

lemma classifySection_position (paragraph : Str) (sections : List Section) (pos : Nat) :
    (classifySection paragraph sections pos).position = pos := by
  simp only [classifySection]
  split_ifs <;> rfl

lemma analyzeGo_map_position (ps : List Str) :
    ∀ acc pos, (∀ p ∈ ps, trimStr p = p ∧ p ≠ []) →
      (analyzeGo ps acc pos).map Section.position =
        acc.map Section.position ++ List.range' pos ps.length := by
  induction ps with
  | nil => intro acc pos _; simp [analyzeGo]
  | cons p rest ih =>
    intro acc pos h
    obtain ⟨hp, hne⟩ := h p (List.mem_cons_self p rest)
    have hrest : ∀ q ∈ rest, trimStr q = q ∧ q ≠ [] :=
      fun q hq => h q (List.mem_cons_of_mem p hq)
    have hne' : trimStr p ≠ [] := by rw [hp]; exact hne
    simp only [analyzeGo, if_neg hne']
    rw [ih _ _ hrest]
    simp [classifySection_position, List.range']

/-- C1. For every list of non-empty trimmed paragraph strings given to
the classifier (the title line excluded), the output has the same length
as the input and the position fields are the contiguous integers
1, 2, …, n in output order; `_analyzeContentStructure` applies exactly
this to the paragraph list with its title head dropped. -/
theorem classify_length_and_positions (ps : List Str)
    (h : ∀ p ∈ ps, trimStr p = p ∧ p ≠ []) :
    (classifyParagraphs ps).length = ps.length ∧
    (classifyParagraphs ps).map Section.position = List.range' 1 ps.length ∧
    ∀ t, analyzeContentStructure (t :: ps) = classifyParagraphs ps := by
  have hmap := analyzeGo_map_position ps [] 1 h
  refine ⟨?_, ?_, fun t => rfl⟩
  · have hlen := congrArg List.length hmap
    simpa using hlen
  · simpa using hmap

/-- Witness for C1 at the concrete input `["ab"]`. -/
theorem classify_length_and_positions_witness :
    (classifyParagraphs [("ab").data]).length = ([("ab").data] : List Str).length ∧
    (classifyParagraphs [("ab").data]).map Section.position =
      List.range' 1 ([("ab").data] : List Str).length ∧
    ∀ t, analyzeContentStructure (t :: [("ab").data]) = classifyParagraphs [("ab").data] :=
  classify_length_and_positions ([("ab").data]) (by decide)

/-- C6. On the title-stripped input `["核心提示：", "助力成长"]` the
classifier emits two Subtitle sections, and the context rule's premises
hold for the second paragraph: the previously emitted section is a
Subtitle, the paragraph does not start with a body-opening word, and its
length is at most 20. -/
theorem context_rule_classification :
    classifyParagraphs [("核心提示：").data, ("助力成长").data] =
      [{ type := SectionType.subtitle, content := ("核心提示：").data, position := 1 },
       { type := SectionType.subtitle, content := ("助力成长").data, position := 2 }] ∧
    (classifyParagraphs [("核心提示：").data]).getLast?.map Section.type =
      some SectionType.subtitle ∧
    bodyStartWords.any (fun w => hasPrefixStr (("助力成长").data) w) = false ∧
    (("助力成长").data).length ≤ 20 := by decide

/-- C9. A paragraph matched by the image rules is classified `image`
even when the subtitle heuristic also matches: the image check runs
first in `_analyzeContentStructure` and the first match wins. -/
theorem image_rules_take_precedence (p : Str) (sections : List Section) (pos : Nat)
    (himg : (isImagePlaceholder (trimStr p)).1 = true)
    (_hsub : isSubtitle (trimStr p) sections = true) :
    analyzeGo [p] sections pos =
      sections ++ [{ type := SectionType.image,
                     content := (isImagePlaceholder (trimStr p)).2, position := pos }] := by
  have hne : trimStr p ≠ [] := by
    intro h0
    rw [h0] at himg
    exact absurd himg (by decide)
  simp only [analyzeGo, if_neg hne]
  unfold classifySection
  simp [himg, analyzeGo]

/-- Witness for C9: `"介绍[图片]"` contains both the image marker
`[图片]` and the subtitle keyword `介绍`, and is classified `image`. -/
theorem image_rules_take_precedence_witness :
    ((isImagePlaceholder (trimStr (("介绍[图片]").data))).1 = true ∧
     isSubtitle (trimStr (("介绍[图片]").data)) [] = true) ∧
    analyzeGo [("介绍[图片]").data] [] 1 =
      [] ++ [{ type := SectionType.image,
               content := (isImagePlaceholder (trimStr (("介绍[图片]").data))).2,
               position := 1 }] :=
  ⟨⟨by decide, by decide⟩,
   image_rules_take_precedence (("介绍[图片]").data) [] 1 (by decide) (by decide)⟩

/-! ### Template selection (`templateRepository` built-in policies) -/

inductive TemplateType where
  | singleImage
  | doubleImageWithCaption
  | doubleImageNoCaption
deriving DecidableEq

/-- `_selectBusinessTemplate(imageCount)`. -/
def selectBusinessTemplate (imageCount : Nat) : TemplateType :=
  if 0 < imageCount ∧ imageCount ≤ 2 then TemplateType.doubleImageWithCaption
  else if 3 ≤ imageCount then TemplateType.doubleImageNoCaption
  else TemplateType.singleImage

/-- `_selectSimpleTemplate(imageCount)`. -/
def selectSimpleTemplate (_ : Nat) : TemplateType :=
  TemplateType.singleImage

/-- `_selectEducationTemplate(imageCount)`. -/
def selectEducationTemplate (imageCount : Nat) : TemplateType :=
  if 0 < imageCount ∧ imageCount ≤ 1 then TemplateType.singleImage
  else if 2 ≤ imageCount then TemplateType.doubleImageWithCaption
  else TemplateType.singleImage

/-- `_selectCreativeTemplate(imageCount)`. -/
def selectCreativeTemplate (imageCount : Nat) : TemplateType :=
  if 0 < imageCount ∧ imageCount ≤ 2 then TemplateType.doubleImageWithCaption
  else if 3 ≤ imageCount then TemplateType.doubleImageNoCaption
  else TemplateType.singleImage

/-- The spec's selection table for `business` and `creative`:
0 → SingleImage, 1–2 → DoubleImageWithCaption, ≥3 → DoubleImageNoCaption. -/
def specBusinessCreativeVariant (n : Nat) : TemplateType :=
  if n = 0 then TemplateType.singleImage
  else if n ≤ 2 then TemplateType.doubleImageWithCaption
  else TemplateType.doubleImageNoCaption

/-- The spec's selection table for `simple`: always SingleImage. -/
def specSimpleVariant (_ : Nat) : TemplateType :=
  TemplateType.singleImage

/-- The spec's selection table for `education`: 0 or 1 → SingleImage,
≥2 → DoubleImageWithCaption. -/
def specEducationVariant (n : Nat) : TemplateType :=
  if n ≤ 1 then TemplateType.singleImage else TemplateType.doubleImageWithCaption

/-- C8. Every built-in `selectVariant` is pointwise the pure function of
the image count given by the spec's table. -/
theorem builtin_selectVariant_table (n : Nat) :
    selectBusinessTemplate n = specBusinessCreativeVariant n ∧
    selectCreativeTemplate n = specBusinessCreativeVariant n ∧
    selectSimpleTemplate n = specSimpleVariant n ∧
    selectEducationTemplate n = specEducationVariant n := by
  refine ⟨?_, ?_, rfl, ?_⟩
  · simp only [selectBusinessTemplate, specBusinessCreativeVariant]
    split_ifs <;> first | rfl | (exfalso; omega)
  · simp only [selectCreativeTemplate, specBusinessCreativeVariant]
    split_ifs <;> first | rfl | (exfalso; omega)
  · simp only [selectEducationTemplate, specEducationVariant]
    split_ifs <;> first | rfl | (exfalso; omega)

/-! ### Layout renderer (`templateEngine.js`) -/

/-- The block-level shape of the generated markup: one constructor per
markup-emitting helper of `TemplateEngine._processContentSections`, each
recording exactly the data the helper receives (the surrounding fixed
markup text carries no data). `creative` records which of the two
styling branches (`templateId === 'creative'`) emitted the block. -/
inductive ContentBlock where
  | textBlock (content : Str) (creative : Bool)
  | subtitleBlock (content : Str) (creative : Bool)
  | imageWithCaptionBlock (startIndex : Nat) (caption1 caption2 : Str) (creative : Bool)
  | doubleImageNoCaptionBlock (creative : Bool)
  | singleImageBlock (creative : Bool)
deriving DecidableEq

def isCreative (templateId : Str) : Bool :=
  templateId = ("creative").data

/-- `imageSources.length` (the fixed two-element asset rotation). -/
def imageSourcesLength : Nat := 2

/-- `String.fromCharCode(0x2460 + (startIndex - 1))` of
`_getImageWithCaptionBlock`. -/
def captionNumber1 (startIndex : Nat) : Char :=
  Char.ofNat (0x2460 + (startIndex - 1))

/-- `String.fromCharCode(0x2460 + startIndex % imageSources.length)` of
`_getImageWithCaptionBlock`. -/
def captionNumber2 (startIndex : Nat) : Char :=
  Char.ofNat (0x2460 + startIndex % imageSourcesLength)

/-- `caption || `${num} 图注`` : the displayed caption of one slot. -/
def displayCaption (caption : Str) (num : Char) : Str :=
  if caption = [] then num :: (" 图注").data else caption

/-- `captionIndex < imageCaptions.length ? imageCaptions[captionIndex] : ''`. -/
def captionAt (caps : List Str) (i : Nat) : Str :=
  if i < caps.length then caps.getD i [] else []

/-- The up-front caption collection of `_processContentSections`:
contents of the image-typed sections, in document order. -/
def imageCaptionsOf (sections : List Section) : List Str :=
  (sections.filter (fun s => s.type = SectionType.image)).map Section.content

/-- Number of image-typed sections. -/
def countImages (sections : List Section) : Nat :=
  (sections.filter (fun s => s.type = SectionType.image)).length

/-- The section walk of `_processContentSections`, carrying the caption
cursor (`captionIndex`, advanced by 2 per image section under the
with-caption variant only) and the image-asset index (`imageIndex`,
starting at 1 and advanced by 2 under the with-caption variant only). -/
def processGo (template : TemplateType) (templateId : Str) (imageCaptions : List Str) :
    List Section → Nat → Nat → List ContentBlock
  | [], _, _ => []
  | s :: rest, captionIndex, imageIndex =>
    match s.type with
    | SectionType.text =>
      ContentBlock.textBlock s.content (isCreative templateId) ::
        processGo template templateId imageCaptions rest captionIndex imageIndex
    | SectionType.subtitle =>
      ContentBlock.subtitleBlock s.content (isCreative templateId) ::
        processGo template templateId imageCaptions rest captionIndex imageIndex
    | SectionType.image =>
      match template with
      | TemplateType.doubleImageWithCaption =>
        let caption1 := captionAt imageCaptions captionIndex
        let caption2 := captionAt imageCaptions (captionIndex + 1)
        ContentBlock.imageWithCaptionBlock imageIndex caption1 caption2 (isCreative templateId) ::
          processGo template templateId imageCaptions rest (captionIndex + 2) (imageIndex + 2)
      | TemplateType.doubleImageNoCaption =>
        ContentBlock.doubleImageNoCaptionBlock (isCreative templateId) ::
          processGo template templateId imageCaptions rest captionIndex imageIndex
      | TemplateType.singleImage =>
        ContentBlock.singleImageBlock (isCreative templateId) ::
          processGo template templateId imageCaptions rest captionIndex imageIndex

/-- `_processContentSections(sections, template, templateId)`. -/
def processContentSections (sections : List Section) (template : TemplateType)
    (templateId : Str) : List ContentBlock :=
  processGo template templateId (imageCaptionsOf sections) sections 0 1

/-- The with-caption image blocks of a block list, as the
`(startIndex, caption1, caption2)` argument triples they received, in
emission order. -/
def imageBlocksOf (blocks : List ContentBlock) : List (Nat × Str × Str) :=
  blocks.filterMap (fun b =>
    match b with
    | ContentBlock.imageWithCaptionBlock s c1 c2 _ => some (s, c1, c2)
    | _ => none)

/-- The displayed caption pair of each with-caption image block, as
computed by `_getImageWithCaptionBlock` from its arguments (identical
caption logic in the creative and non-creative variants). -/
def displayedImagePairs (blocks : List ContentBlock) : List (Str × Str) :=
  (imageBlocksOf blocks).map (fun t =>
    (displayCaption t.2.1 (captionNumber1 t.1), displayCaption t.2.2 (captionNumber2 t.1)))

/-- Closed form of the image-block triples: starting at caption cursor
`i` and asset index `s`, `n` image sections produce cursor positions
`i, i+2, …` and asset indices `s, s+2, …`. -/
def imageBlocksFrom (caps : List Str) : Nat → Nat → Nat → List (Nat × Str × Str)
  | _, _, 0 => []
  | i, s, n + 1 =>
    (s, captionAt caps i, captionAt caps (i + 1)) :: imageBlocksFrom caps (i + 2) (s + 2) n

lemma imageBlocksOf_cons (b : ContentBlock) (l : List ContentBlock) :
    imageBlocksOf (b :: l) =
      (match b with
       | ContentBlock.imageWithCaptionBlock s c1 c2 _ => [(s, c1, c2)]
       | _ => []) ++ imageBlocksOf l := by
  cases b <;> rfl

lemma countImages_cons (s : Section) (rest : List Section) :
    countImages (s :: rest) =
      countImages rest + (if s.type = SectionType.image then 1 else 0) := by
  obtain ⟨ty, cnt, pos⟩ := s
  cases ty <;> simp [countImages, List.filter_cons]

lemma processGo_imageBlocks (templateId : Str) (caps : List Str) :
    ∀ (sections : List Section) (capIdx imgIdx : Nat),
      imageBlocksOf
        (processGo TemplateType.doubleImageWithCaption templateId caps sections capIdx imgIdx) =
        imageBlocksFrom caps capIdx imgIdx (countImages sections) := by
  intro sections
  induction sections with
  | nil =>
    intro capIdx imgIdx
    simp [processGo, imageBlocksOf, countImages, imageBlocksFrom]
  | cons s rest ih =>
    intro capIdx imgIdx
    obtain ⟨ty, cnt, pos⟩ := s
    cases ty
    · simpa [processGo, imageBlocksOf_cons, countImages_cons] using ih capIdx imgIdx
    · simpa [processGo, imageBlocksOf_cons, countImages_cons] using ih capIdx imgIdx
    · simp only [processGo, imageBlocksOf_cons, countImages_cons]
      rw [ih (capIdx + 2) (imgIdx + 2)]
      simp [imageBlocksFrom]

/-- C2. With exactly 4 image sections carrying captions c1…c4 (in
document order, arbitrarily interleaved with text/subtitle sections),
the with-caption variant emits one two-image block per image section;
the caption cursor hands the captions out in the two pairs (c1,c2) then
(c3,c4), each caption filling exactly one slot, after which the cursor
has overrun and the remaining blocks receive empty captions. The asset
indices 1, 3, 5, 7 confirm the emission order. -/
theorem caption_pairing (sections : List Section) (templateId : Str) (c1 c2 c3 c4 : Str)
    (h : imageCaptionsOf sections = [c1, c2, c3, c4]) :
    imageBlocksOf (processContentSections sections TemplateType.doubleImageWithCaption templateId) =
      [(1, c1, c2), (3, c3, c4), (5, [], []), (7, [], [])] := by
  have hcount : countImages sections = 4 := by
    have hlen := congrArg List.length h
    simpa [imageCaptionsOf, countImages] using hlen
  unfold processContentSections
  rw [h, processGo_imageBlocks, hcount]
  simp [imageBlocksFrom, captionAt, List.getD]

/-- Witness for C2 at a concrete interleaved section list. -/
theorem caption_pairing_witness :
    imageBlocksOf (processContentSections
      [{ type := SectionType.image, content := ("c1").data, position := 1 },
       { type := SectionType.text, content := ("t").data, position := 2 },
       { type := SectionType.image, content := ("c2").data, position := 3 },
       { type := SectionType.image, content := ("c3").data, position := 4 },
       { type := SectionType.subtitle, content := ("s").data, position := 5 },
       { type := SectionType.image, content := ("c4").data, position := 6 }]
      TemplateType.doubleImageWithCaption []) =
      [(1, ("c1").data, ("c2").data), (3, ("c3").data, ("c4").data),
       (5, [], []), (7, [], [])] :=
  caption_pairing _ [] _ _ _ _ (by decide)

/-- C7 (amended). With exactly one image section of caption c, the
with-caption variant emits one two-image block; the second caption slot
always receives the synthesized placeholder `② 图注`, while the first
receives the section's own caption when it is non-empty and the
placeholder `① 图注` only when the caption is empty. -/
theorem single_image_caption_slots (sections : List Section) (templateId : Str) (c : Str)
    (h : imageCaptionsOf sections = [c]) :
    displayedImagePairs
        (processContentSections sections TemplateType.doubleImageWithCaption templateId) =
      [(if c = [] then ("① 图注").data else c, ("② 图注").data)] := by
  have hcount : countImages sections = 1 := by
    have hlen := congrArg List.length h
    simpa [imageCaptionsOf, countImages] using hlen
  have hblocks : imageBlocksOf
      (processContentSections sections TemplateType.doubleImageWithCaption templateId) =
      [(1, c, [])] := by
    unfold processContentSections
    rw [h, processGo_imageBlocks, hcount]
    simp [imageBlocksFrom, captionAt, List.getD]
  have e1 : displayCaption [] (captionNumber1 1) = ("① 图注").data := by decide
  have e2 : displayCaption [] (captionNumber2 1) = ("② 图注").data := by decide
  by_cases hc : c = []
  · subst hc
    simp [displayedImagePairs, hblocks, e1, e2]
  · simp [displayedImagePairs, hblocks, displayCaption, hc, e1, e2]
    decide

/-- Witness for the amended C7 at one image section with caption `"c"`. -/
theorem single_image_caption_slots_witness :
    displayedImagePairs (processContentSections
      [{ type := SectionType.image, content := ("c").data, position := 1 }]
      TemplateType.doubleImageWithCaption []) =
      [(if ("c").data = ([] : Str) then ("① 图注").data else ("c").data, ("② 图注").data)] :=
  single_image_caption_slots _ [] _ (by decide)

/-- C7 counterexample. A document with exactly one image section whose
caption is the non-empty string `"c"` renders that caption — not a
synthesized placeholder — into the first caption slot, so it is not the
case that both slots receive synthesized placeholder captions. -/
theorem single_image_first_slot_keeps_caption :
    displayedImagePairs (processContentSections
      [{ type := SectionType.image, content := ("c").data, position := 1 }]
      TemplateType.doubleImageWithCaption []) =
      [(("c").data, ("② 图注").data)] ∧
    ("c").data ≠ ("① 图注").data := by decide

/-- C3 (behavior at the failing input). Two image sections with empty
captions under the with-caption variant: the image-asset indices are
1 and 3 (2k−1 for the k-th block, as claimed), and the synthesized
placeholders are `① 图注`/`② 图注` for the first block but
`③ 图注`/`② 图注` for the second — the second slot's circled digit is
`0x2460 + startIndex % 2` (always ②), not the circled digit for 2k = 4
required by the claim. -/
theorem caption_numbering_failing_input :
    (imageBlocksOf (processContentSections
      [{ type := SectionType.image, content := [], position := 1 },
       { type := SectionType.image, content := [], position := 2 }]
      TemplateType.doubleImageWithCaption [])).map Prod.fst = [1, 3] ∧
    displayedImagePairs (processContentSections
      [{ type := SectionType.image, content := [], position := 1 },
       { type := SectionType.image, content := [], position := 2 }]
      TemplateType.doubleImageWithCaption []) =
      [(("① 图注").data, ("② 图注").data), (("③ 图注").data, ("② 图注").data)] ∧
    ("② 图注").data ≠ ("④ 图注").data := by decide

/-! ### Template registry (`templateRepository.js`) -/

/-- The `selectTemplate` functions that can be stored in the registry:
the four built-in policies plus the threshold-pair closures produced by
`_createCustomSelectTemplate(imageRules)` and policies inherited from a
base template. -/
inductive SelectPolicy where
  | business
  | simple
  | education
  | creative
  | custom (minImagesForDoubleNoCaption minImagesForDoubleWithCaption : Int)
deriving DecidableEq

/-- Interpretation of a stored `selectTemplate` function on an image
count; the custom case is `_createCustomSelectTemplate`. -/
def selectTemplateFun : SelectPolicy → Nat → TemplateType
  | SelectPolicy.business, n => selectBusinessTemplate n
  | SelectPolicy.simple, n => selectSimpleTemplate n
  | SelectPolicy.education, n => selectEducationTemplate n
  | SelectPolicy.creative, n => selectCreativeTemplate n
  | SelectPolicy.custom a b, n =>
    if a ≤ (n : Int) then TemplateType.doubleImageNoCaption
    else if b ≤ (n : Int) then TemplateType.doubleImageWithCaption
    else TemplateType.singleImage

/-- A registry entry: `{ id, name, description, selectTemplate }`;
`description` is `none` when the stored property is `undefined` (as
`createCustomTemplate` can store via an inherited base). -/
structure TemplateDef where
  id : Str
  name : Str
  description : Option Str
  policy : SelectPolicy
deriving DecidableEq

/-- The `TemplateRepository` state: its `templates` object (insertion
ordered, unique keys in JS) and `this.defaultTemplate` (nullable). -/
structure RegistryState where
  templates : List (Str × TemplateDef)
  defaultTemplate : Option Str
deriving DecidableEq

def businessDef : TemplateDef :=
  { id := ("business").data, name := ("商务风格").data,
    description := some (("适用于商务类文章的模板风格").data), policy := SelectPolicy.business }

def simpleDef : TemplateDef :=
  { id := ("simple").data, name := ("简约风格").data,
    description := some (("简洁明了的文章模板风格").data), policy := SelectPolicy.simple }

def educationDef : TemplateDef :=
  { id := ("education").data, name := ("教育风格").data,
    description := some (("适用于教育类文章的模板风格").data), policy := SelectPolicy.education }

def creativeDef : TemplateDef :=
  { id := ("creative").data, name := ("创意风格").data,
    description := some (("富有创意设计感的文章模板风格").data), policy := SelectPolicy.creative }

/-- The constructor-seeded registry: four built-ins, default `business`. -/
def initialRegistry : RegistryState :=
  { templates := [(businessDef.id, businessDef), (simpleDef.id, simpleDef),
                  (educationDef.id, educationDef), (creativeDef.id, creativeDef)],
    defaultTemplate := some (("business").data) }

/-- `getTemplateById(templateId)` — the own entry behind
`this.templates[templateId] || null`, or `none`. For a key with no own
entry that is an inherited `Object.prototype` property name the source
expression returns the truthy inherited member (never a template)
instead of `null`; that case is modelled by `templatesAccess` below, and
every consumer of such a non-template value throws on
`template.selectTemplate`, the same observable outcome as the `none`
case here. -/
def getTemplateById (templateId : Str) (st : RegistryState) : Option TemplateDef :=
  (st.templates.find? (fun p => p.1 == templateId)).map Prod.snd

/-- `getDefaultTemplate()` — `this.templates[this.defaultTemplate]`
restricted to own entries (see `getTemplateById`). -/
def getDefaultTemplate (st : RegistryState) : Option TemplateDef :=
  match st.defaultTemplate with
  | some d => getTemplateById d st
  | none => none

/-- The own property names of `Object.prototype`: a property read on a
plain object with one of these keys yields an inherited member (a
function, or the prototype object for `__proto__`) even when the object
has no own entry for the key — and all these values are truthy. -/
def protoKeys : List Str :=
  (["constructor", "hasOwnProperty", "isPrototypeOf", "propertyIsEnumerable",
    "toLocaleString", "toString", "valueOf", "__defineGetter__", "__defineSetter__",
    "__lookupGetter__", "__lookupSetter__", "__proto__"]).map String.data

/-- The value of the property access `this.templates[key]` on the plain
`templates` object: an own entry when the key is stored; a truthy
inherited `Object.prototype` member (not a template) when it is not
stored but is one of `protoKeys`; `undefined` otherwise. -/
inductive PropAccess where
  | ownEntry (t : TemplateDef)
  | inheritedJunk
  | undef
deriving DecidableEq

/-- JavaScript truthiness of the accessed value: own entries and
inherited members are objects/functions (truthy); `undefined` is falsy. -/
def PropAccess.truthy : PropAccess → Bool
  | PropAccess.ownEntry _ => true
  | PropAccess.inheritedJunk => true
  | PropAccess.undef => false

/-- `this.templates[key]` with full prototype-chain semantics. -/
def templatesAccess (key : Str) (st : RegistryState) : PropAccess :=
  match getTemplateById key st with
  | some t => PropAccess.ownEntry t
  | none =>
    if protoKeys.contains key then PropAccess.inheritedJunk else PropAccess.undef

/-- The access `this.templates[this.defaultTemplate]` performed by
`getDefaultTemplate()`; a `null` default is coerced to the property key
`"null"`. -/
def defaultAccess (st : RegistryState) : PropAccess :=
  match st.defaultTemplate with
  | some d => templatesAccess d st
  | none => templatesAccess (("null").data) st

lemma templatesAccess_truthy (key : Str) (st : RegistryState) :
    (templatesAccess key st).truthy =
      ((getTemplateById key st).isSome || protoKeys.contains key) := by
  unfold templatesAccess
  cases h : getTemplateById key st with
  | some t => simp [PropAccess.truthy]
  | none =>
    cases hp : protoKeys.contains key with
    | true => simp [hp, PropAccess.truthy]
    | false => simp [hp, PropAccess.truthy]

/-- `setDefaultTemplate(templateId)`: the guard
`if (this.templates[templateId])` is a truthiness test of the property
access, so it also passes for an inherited `Object.prototype` key with
no own entry — in that case `defaultTemplate` is set to an id that
refers to no registry entry. The method has no error path. -/
def setDefaultTemplate (templateId : Str) (st : RegistryState) : RegistryState :=
  if (templatesAccess templateId st).truthy then
    { st with defaultTemplate := some templateId }
  else st

/-- The `/set-default-template` API route handler: 400 on missing id,
404 (`模板不存在`) when `getTemplateById`'s result (`access || null`) is
falsy, otherwise calls `setDefaultTemplate`. For an inherited
`Object.prototype` key the access is truthy, so the `!template` check
does not 404 and the repository method is invoked. -/
def setDefaultTemplateRoute (templateId : Str) (st : RegistryState) :
    Except Str RegistryState :=
  if templateId.isEmpty then Except.error (("缺少模板ID").data)
  else if !(templatesAccess templateId st).truthy then
    Except.error (("模板不存在").data)
  else Except.ok (setDefaultTemplate templateId st)

/-- `addTemplate(template)`: validates id/name (the `selectTemplate`
presence and function checks always pass in this model, where a policy
is stored), rejects duplicate ids — the duplicate check
`if (this.templates[template.id])` is a truthiness test, so it also
throws for an inherited `Object.prototype` key id such as `toString`
although no entry exists — else inserts at the end. Errors are returned
as the second component; the first component is the registry state
after the call (unchanged on error — all checks precede the mutation). -/
def addTemplate (t : TemplateDef) (st : RegistryState) : RegistryState × Option Str :=
  if t.id.isEmpty || t.name.isEmpty then
    (st, some (("模板必须包含id、name和selectTemplate属性").data))
  else if (templatesAccess t.id st).truthy then
    (st, some (("模板ID已存在").data))
  else
    ({ st with templates := st.templates ++ [(t.id, t)] }, none)

/-- `removeTemplate(templateId)`: empty-id, not-found and
last-template-remaining checks (in source order, all before the
mutation), then `delete` of the key and, when the removed id was the
default, reassignment of the default to the first remaining own key.
The not-found check `if (!this.templates[templateId])` is a truthiness
test, so an inherited `Object.prototype` key passes it; `delete` of such
a key removes no own entry (the filter removes no pair), and the call
returns successfully without deleting anything. -/
def removeTemplate (templateId : Str) (st : RegistryState) : RegistryState × Option Str :=
  if templateId.isEmpty then (st, some (("模板ID不能为空").data))
  else if !(templatesAccess templateId st).truthy then
    (st, some (("模板不存在").data))
  else if st.templates.length ≤ 1 then
    (st, some (("不能删除所有模板，至少需要保留一个模板").data))
  else
    let templates0 := st.templates.filter (fun p => !(p.1 == templateId))
    let default0 :=
      if st.defaultTemplate = some templateId then (templates0.map Prod.fst).head?
      else st.defaultTemplate
    ({ templates := templates0, defaultTemplate := default0 }, none)

/-- `createCustomTemplate`'s base-template resolution:
`baseTemplate && this.templates[baseTemplate] ? this.templates[baseTemplate]
: this.getDefaultTemplate()` — a property access on either side, so an
inherited `Object.prototype` key can be selected as the base (a truthy
non-template). -/
def resolveBaseAccess (baseTemplate : Option Str) (st : RegistryState) : PropAccess :=
  match baseTemplate with
  | some b =>
    if !b.isEmpty && (templatesAccess b st).truthy then templatesAccess b st
    else defaultAccess st
  | none => defaultAccess st

/-- `createCustomTemplate(templateConfig)`'s config object. -/
structure TemplateConfig where
  id : Str
  name : Str
  description : Option Str
  baseTemplate : Option Str
  imageRules : Option (Int × Int)
deriving DecidableEq

/-- `createCustomTemplate(templateConfig)`: id/name validation,
truthiness duplicate check, base resolution, then `addTemplate` of the
assembled definition. The lazily evaluated source expressions are
modelled case by case: for an inherited (junk) base, `base.selectTemplate`
and `base.description` read as `undefined`, so without `imageRules` the
assembled template fails `addTemplate`'s `!template.selectTemplate`
check, and with them it is inserted (description possibly `undefined`);
for an `undefined` base the first property read that is actually
evaluated (`base.selectTemplate` when `imageRules` is falsy, else
`base.description` when `description` is falsy) throws a TypeError. -/
def createCustomTemplate (cfg : TemplateConfig) (st : RegistryState) :
    RegistryState × Option Str :=
  if cfg.id.isEmpty || cfg.name.isEmpty then (st, some (("模板必须包含ID和名称").data))
  else if (templatesAccess cfg.id st).truthy then (st, some (("模板ID已存在").data))
  else
    match resolveBaseAccess cfg.baseTemplate st with
    | PropAccess.ownEntry base =>
      addTemplate
        { id := cfg.id, name := cfg.name,
          description :=
            (match cfg.description with
             | some d => if d.isEmpty then base.description else some d
             | none => base.description),
          policy :=
            (match cfg.imageRules with
             | some r => SelectPolicy.custom r.1 r.2
             | none => base.policy) } st
    | PropAccess.inheritedJunk =>
      (match cfg.imageRules with
       | some r =>
         addTemplate
           { id := cfg.id, name := cfg.name,
             description :=
               (match cfg.description with
                | some d => if d.isEmpty then none else some d
                | none => none),
             policy := SelectPolicy.custom r.1 r.2 } st
       | none => (st, some (("模板必须包含id、name和selectTemplate属性").data)))
    | PropAccess.undef =>
      (match cfg.imageRules, cfg.description with
       | some r, some d =>
         if d.isEmpty then (st, some (("TypeError").data))
         else
           addTemplate
             { id := cfg.id, name := cfg.name, description := some d,
               policy := SelectPolicy.custom r.1 r.2 } st
       | _, _ => (st, some (("TypeError").data)))

/-- The registry invariant of the spec: at least one template, and
`defaultTemplateId` refers to an existing entry. -/
def registryInvariant (st : RegistryState) : Bool :=
  !st.templates.isEmpty &&
    (match st.defaultTemplate with
     | some d => (getTemplateById d st).isSome
     | none => false)

/-! ### Registry and engine theorems -/

/-- C5 counterexample. On the initial registry and the absent id
`"nosuch"`, `setDefaultTemplate` neither fails nor signals anything: it
is a total function that returns the registry unchanged, contradicting
the claim that the operation fails with a NotFound error. -/
theorem setDefault_absent_silent_noop :
    setDefaultTemplate (("nosuch").data) initialRegistry = initialRegistry ∧
    getTemplateById (("nosuch").data) initialRegistry = none := by decide

/-- C5 (amended). `setDefaultTemplate` has no error path. When the
property access `this.templates[id]` is falsy (no own entry and not an
inherited `Object.prototype` key) it is a silent no-op, and the API
route answers 404 without invoking it; when the id has an own entry it
updates `defaultTemplateId` to that id; and for an inherited
`Object.prototype` key with no own entry (e.g. `toString`) the truthy
inherited member passes both the route's `!template` check and the
method's guard, so the method mutates `defaultTemplateId` and the route
reports success. -/
theorem setDefault_behavior (templateId : Str) (st : RegistryState) :
    ((templatesAccess templateId st).truthy = false →
      setDefaultTemplate templateId st = st) ∧
    (∀ t, getTemplateById templateId st = some t →
      (setDefaultTemplate templateId st).defaultTemplate = some templateId ∧
      (setDefaultTemplate templateId st).templates = st.templates) ∧
    (templateId ≠ [] → (templatesAccess templateId st).truthy = false →
      setDefaultTemplateRoute templateId st = Except.error (("模板不存在").data)) ∧
    (getTemplateById templateId st = none → protoKeys.contains templateId = true →
      (setDefaultTemplate templateId st).defaultTemplate = some templateId ∧
      setDefaultTemplateRoute templateId st =
        Except.ok (setDefaultTemplate templateId st)) := by
  refine ⟨?_, ?_, ?_, ?_⟩
  · intro hf
    simp [setDefaultTemplate, hf]
  · intro t ht
    have htr : (templatesAccess templateId st).truthy = true := by
      rw [templatesAccess_truthy]
      simp [ht]
    simp [setDefaultTemplate, htr]
  · intro hne hf
    have hemp : templateId.isEmpty = false := by
      cases templateId with
      | nil => exact absurd rfl hne
      | cons c cs => rfl
    simp [setDefaultTemplateRoute, hemp, hf]
  · intro hO hp
    have htr : (templatesAccess templateId st).truthy = true := by
      rw [templatesAccess_truthy, hO]
      simpa using hp
    have hemp : templateId.isEmpty = false := by
      cases templateId with
      | nil => exact absurd hp (by decide)
      | cons c cs => rfl
    constructor
    · simp [setDefaultTemplate, htr]
    · simp [setDefaultTemplateRoute, hemp, htr]

/-- Witness for the amended C5: no-op on the absent id `"nosuch2"`,
update on the present id `"simple"`, and the erroneous update on the
inherited key `"toString"`. -/
theorem setDefault_behavior_witness :
    setDefaultTemplate (("nosuch2").data) initialRegistry = initialRegistry ∧
    (setDefaultTemplate (("simple").data) initialRegistry).defaultTemplate =
      some (("simple").data) ∧
    (setDefaultTemplate (("toString").data) initialRegistry).defaultTemplate =
      some (("toString").data) :=
  ⟨(setDefault_behavior (("nosuch2").data) initialRegistry).1 (by decide),
   ((setDefault_behavior (("simple").data) initialRegistry).2.1 simpleDef (by decide)).1,
   ((setDefault_behavior (("toString").data) initialRegistry).2.2.2
      (by decide) (by decide)).1⟩

/-! ### Template engine (`applyTemplate`) -/

/-- `ParsedContent`: the `{ title, sections }` object handed to the
engine. -/
structure ParsedContent where
  title : Str
  sections : List Section
deriving DecidableEq

/-- The data content of `_generateHTML`'s output: which container style
was chosen, whether/which title block was emitted, and the content
blocks (header, divider and footer are fixed constants). -/
structure HtmlDoc where
  creativeContainer : Bool
  titleBlock : Option Str
  blocks : List ContentBlock
deriving DecidableEq

/-- `_generateHTML(content, template, templateId)`. -/
def generateHTML (content : ParsedContent) (template : TemplateType)
    (templateId : Str) : HtmlDoc :=
  { creativeContainer := isCreative templateId,
    titleBlock := if content.title = [] then none else some content.title,
    blocks := processContentSections content.sections template templateId }

/-- Rendering with a resolved template: image count, variant selection
by the template's `selectTemplate`, then `_generateHTML`. -/
def renderWithTemplate (t : TemplateDef) (content : ParsedContent) : HtmlDoc :=
  generateHTML content (selectTemplateFun t.policy (countImages content.sections)) t.id

/-- `applyTemplate(content, templateId)`: a truthy `templateId` is looked
up (a failed lookup leaves `template` null, so `template.selectTemplate`
throws and the catch block rethrows `模板应用失败: …`); a falsy one
resolves to the default template. -/
def applyTemplate (content : ParsedContent) (templateId : Option Str)
    (st : RegistryState) : Except Str HtmlDoc :=
  let template :=
    match templateId with
    | some tid => if tid.isEmpty then getDefaultTemplate st else getTemplateById tid st
    | none => getDefaultTemplate st
  match template with
  | none => Except.error (("模板应用失败").data)
  | some t => Except.ok (renderWithTemplate t content)

/-- C10. A non-empty `templateId` absent from the registry makes
`applyTemplate` fail (no fallback to the default); a present one renders
with exactly that template; the default template is consulted only when
`templateId` is omitted or falsy (the empty string behaves as omitted). -/
theorem applyTemplate_resolution (content : ParsedContent) (st : RegistryState) (tid : Str) :
    (tid ≠ [] → getTemplateById tid st = none →
      applyTemplate content (some tid) st = Except.error (("模板应用失败").data)) ∧
    (∀ t, tid ≠ [] → getTemplateById tid st = some t →
      applyTemplate content (some tid) st = Except.ok (renderWithTemplate t content)) ∧
    (applyTemplate content none st = applyTemplate content (some []) st) ∧
    (∀ d, getDefaultTemplate st = some d →
      applyTemplate content none st = Except.ok (renderWithTemplate d content)) := by
  have hemp : ∀ (l : Str), l ≠ [] → l.isEmpty = false := by
    intro l hl
    cases l with
    | nil => exact absurd rfl hl
    | cons c cs => rfl
  refine ⟨?_, ?_, ?_, ?_⟩
  · intro hne h
    simp [applyTemplate, hemp tid hne, h]
  · intro t hne h
    simp [applyTemplate, hemp tid hne, h]
  · simp [applyTemplate]
  · intro d hd
    simp [applyTemplate, hd]

/-- Witness for C10: the absent id `"nosuch"` on the initial registry
produces the rethrown template-application error. -/
theorem applyTemplate_resolution_witness :
    applyTemplate { title := [], sections := [] } (some (("nosuch").data)) initialRegistry =
      Except.error (("模板应用失败").data) :=
  (applyTemplate_resolution { title := [], sections := [] } initialRegistry
    (("nosuch").data)).1 (by decide) (by decide)

lemma registryInvariant_iff (st : RegistryState) :
    registryInvariant st = true ↔
      st.templates ≠ [] ∧
      ∃ d, st.defaultTemplate = some d ∧ (getTemplateById d st).isSome = true := by
  rcases st with ⟨ts, dflt⟩
  cases dflt with
  | none => simp [registryInvariant]
  | some d => simp [registryInvariant, List.isEmpty_iff]

lemma isSome_map_snd (o : Option (Str × TemplateDef)) :
    (o.map Prod.snd).isSome = o.isSome := by
  cases o <;> rfl

lemma find?_isSome_append (p : Str × TemplateDef → Bool)
    (l1 l2 : List (Str × TemplateDef)) (h : (l1.find? p).isSome = true) :
    ((l1 ++ l2).find? p).isSome = true := by
  induction l1 with
  | nil => simp [List.find?] at h
  | cons a l ih =>
    cases hp : p a with
    | true => simp [List.find?, hp]
    | false =>
      rw [List.cons_append]
      simp only [List.find?, hp] at h ⊢
      exact ih h

lemma find?_key_filter (l : List (Str × TemplateDef)) (d id : Str) (hne : d ≠ id)
    (h : (l.find? (fun p => p.1 == d)).isSome = true) :
    ((l.filter (fun p => !(p.1 == id))).find? (fun p => p.1 == d)).isSome = true := by
  induction l with
  | nil => simp [List.find?] at h
  | cons a l ih =>
    cases hd : (a.1 == d) with
    | true =>
      have had : a.1 = d := by simpa using hd
      have hkid : (a.1 == id) = false := by
        rw [had]
        simpa using hne
      simp [List.filter_cons, hkid, List.find?, hd]
    | false =>
      simp only [List.find?, hd] at h
      by_cases hk : (a.1 == id) = true
      · have hcond : (!(a.1 == id)) = false := by rw [hk]; rfl
        rw [List.filter_cons, if_neg (by simp [hcond])]
        exact ih h
      · have hk' : (a.1 == id) = false := by
          cases hx : (a.1 == id) with
          | true => exact absurd hx hk
          | false => rfl
        simp only [List.filter_cons, hk', Bool.not_false, if_true]
        simp only [List.find?, hd]
        exact ih h

lemma head_key_isSome (q : Str × TemplateDef) (rest : List (Str × TemplateDef)) :
    ((q :: rest).find? (fun p => p.1 == q.1)).isSome = true := by
  simp [List.find?]

lemma filter_keys_ne_nil (st : RegistryState) (id : Str)
    (hnd : (st.templates.map Prod.fst).Nodup) (hlen : 1 < st.templates.length) :
    st.templates.filter (fun p => !(p.1 == id)) ≠ [] := by
  have h1 : st.templates ≠ [] := by
    intro e
    rw [e] at hlen
    exact absurd hlen (by decide)
  obtain ⟨a, l, hts⟩ := List.exists_cons_of_ne_nil h1
  have h2 : l ≠ [] := by
    intro e
    rw [hts, e] at hlen
    simp at hlen
  obtain ⟨b, rest, hl⟩ := List.exists_cons_of_ne_nil h2
  have hab : st.templates = a :: b :: rest := by rw [hts, hl]
  have hnd' := hnd
  rw [hab, List.map_cons, List.map_cons] at hnd'
  have hnotmem : a.1 ∉ b.1 :: List.map Prod.fst rest := (List.nodup_cons.mp hnd').1
  have hab1 : a.1 ≠ b.1 := fun e => hnotmem (e ▸ List.mem_cons_self _ _)
  by_cases haid : a.1 = id
  · have hbid : b.1 ≠ id := fun e => hab1 (by rw [haid, e])
    have hmem : b ∈ st.templates.filter (fun p => !(p.1 == id)) := by
      rw [hab]
      refine List.mem_filter.mpr ⟨List.mem_cons_of_mem _ (List.mem_cons_self _ _), ?_⟩
      simpa using hbid
    exact List.ne_nil_of_mem hmem
  · have hmem : a ∈ st.templates.filter (fun p => !(p.1 == id)) := by
      rw [hab]
      refine List.mem_filter.mpr ⟨List.mem_cons_self _ _, ?_⟩
      simpa using haid
    exact List.ne_nil_of_mem hmem

lemma removeTemplate_success (st : RegistryState) (id : Str)
    (hid : id.isEmpty = false) (htr : (templatesAccess id st).truthy = true)
    (hlen : 1 < st.templates.length) :
    removeTemplate id st =
      ({ templates := st.templates.filter (fun p => !(p.1 == id)),
         defaultTemplate :=
           if st.defaultTemplate = some id then
             ((st.templates.filter (fun p => !(p.1 == id))).map Prod.fst).head?
           else st.defaultTemplate }, none) := by
  unfold removeTemplate
  rw [if_neg (by simp [hid]), if_neg (by simp [htr]), if_neg (by omega)]

/-- C4 counterexample. On the freshly initialized registry,
`setDefaultTemplate('toString')` — a registry operation on an id with no
entry — succeeds: `Object.prototype.toString` makes the guard
`if (this.templates['toString'])` truthy, so `defaultTemplateId` is set
to an id that refers to no existing entry, destroying the invariant the
claim asserts every operation preserves. -/
theorem setDefault_prototype_key_breaks_invariant :
    registryInvariant initialRegistry = true ∧
    getTemplateById (("toString").data) initialRegistry = none ∧
    (setDefaultTemplate (("toString").data) initialRegistry).defaultTemplate =
      some (("toString").data) ∧
    registryInvariant (setDefaultTemplate (("toString").data) initialRegistry) = false := by
  decide

/-- C4 (amended). On any registry state satisfying the invariant (and
with the unique keys a JS object guarantees), add, remove and
create-custom always yield a state that again satisfies the invariant
(at least one template, default refers to an existing entry);
set-default preserves it for every id that is not an inherited
`Object.prototype` property name or that has an entry (for an inherited
name with no entry it breaks the invariant — see the counterexample);
removing the sole remaining template errors and leaves the state
unchanged; and successfully removing the current default reassigns the
default to some remaining id. -/
theorem registry_ops_preserve_invariant (st : RegistryState)
    (h : registryInvariant st = true) (hnd : (st.templates.map Prod.fst).Nodup) :
    (∀ t, registryInvariant (addTemplate t st).1 = true) ∧
    (∀ id, registryInvariant (removeTemplate id st).1 = true) ∧
    (∀ id, protoKeys.contains id = false ∨ (getTemplateById id st).isSome = true →
      registryInvariant (setDefaultTemplate id st) = true) ∧
    (∀ cfg, registryInvariant (createCustomTemplate cfg st).1 = true) ∧
    (st.templates.length = 1 →
      ∀ id, (removeTemplate id st).2.isSome = true ∧ (removeTemplate id st).1 = st) ∧
    (∀ id, id ≠ [] → st.defaultTemplate = some id → 1 < st.templates.length →
      ∃ k, (removeTemplate id st).1.defaultTemplate = some k ∧ k ≠ id ∧
        (getTemplateById k (removeTemplate id st).1).isSome = true) := by
  obtain ⟨hne, d, hd, hfind⟩ := (registryInvariant_iff st).mp h
  have hadd : ∀ t, registryInvariant (addTemplate t st).1 = true := by
    intro t
    unfold addTemplate
    split_ifs with h1 h2
    · exact h
    · exact h
    · rw [registryInvariant_iff]
      refine ⟨by simp, d, hd, ?_⟩
      simp only [getTemplateById, isSome_map_snd] at hfind ⊢
      exact find?_isSome_append _ _ _ hfind
  have hremInv : ∀ id, registryInvariant (removeTemplate id st).1 = true := by
    intro id
    by_cases hid : id.isEmpty = true
    · unfold removeTemplate
      rw [if_pos hid]
      exact h
    · have hid' : id.isEmpty = false := by
        cases hx : id.isEmpty with
        | true => exact absurd hx hid
        | false => rfl
      by_cases htr : (templatesAccess id st).truthy = true
      · by_cases hlen : st.templates.length ≤ 1
        · unfold removeTemplate
          rw [if_neg (by simp [hid']), if_neg (by simp [htr]), if_pos hlen]
          exact h
        · have hlen' : 1 < st.templates.length := by omega
          rw [removeTemplate_success st id hid' htr hlen']
          rw [registryInvariant_iff]
          refine ⟨filter_keys_ne_nil st id hnd hlen', ?_⟩
          by_cases hdid : st.defaultTemplate = some id
          · obtain ⟨q, rest, hq⟩ : ∃ q rest,
                st.templates.filter (fun p => !(p.1 == id)) = q :: rest := by
              obtain ⟨q, rest, hq⟩ :=
                List.exists_cons_of_ne_nil (filter_keys_ne_nil st id hnd hlen')
              exact ⟨q, rest, hq⟩
            refine ⟨q.1, ?_, ?_⟩
            · rw [if_pos hdid, hq]
              rfl
            · simp only [getTemplateById, isSome_map_snd]
              rw [hq]
              exact head_key_isSome q rest
          · refine ⟨d, ?_, ?_⟩
            · rw [if_neg hdid]
              exact hd
            · have hdne : d ≠ id := fun e => hdid (by rw [← e]; exact hd)
              simp only [getTemplateById, isSome_map_snd] at hfind ⊢
              exact find?_key_filter _ _ _ hdne hfind
      · have htr' : (templatesAccess id st).truthy = false := by
          cases hx : (templatesAccess id st).truthy with
          | true => exact absurd hx htr
          | false => rfl
        unfold removeTemplate
        rw [if_neg (by simp [hid']), if_pos (by simp [htr'])]
        exact h
  have hsetInv : ∀ id,
      protoKeys.contains id = false ∨ (getTemplateById id st).isSome = true →
      registryInvariant (setDefaultTemplate id st) = true := by
    intro id hyp
    unfold setDefaultTemplate
    by_cases htr : (templatesAccess id st).truthy = true
    · rw [if_pos htr, registryInvariant_iff]
      have hown : (getTemplateById id st).isSome = true := by
        rcases hyp with hnp | hown
        · rw [templatesAccess_truthy, hnp] at htr
          simpa using htr
        · exact hown
      exact ⟨hne, id, rfl, hown⟩
    · rw [if_neg htr]
      exact h
  have hcustom : ∀ cfg, registryInvariant (createCustomTemplate cfg st).1 = true := by
    intro cfg
    unfold createCustomTemplate
    split_ifs with h1 h2
    · exact h
    · exact h
    · cases hb : resolveBaseAccess cfg.baseTemplate st with
      | ownEntry base =>
        simp only [hb]
        exact hadd _
      | inheritedJunk =>
        simp only [hb]
        cases hr : cfg.imageRules with
        | some r => simp only; exact hadd _
        | none => simp only; exact h
      | undef =>
        simp only [hb]
        cases hr : cfg.imageRules with
        | none => simp only; exact h
        | some r =>
          cases hdesc : cfg.description with
          | none => simp only; exact h
          | some dd =>
            simp only
            by_cases hdd : dd.isEmpty = true
            · rw [if_pos hdd]
              exact h
            · rw [if_neg hdd]
              exact hadd _
  refine ⟨hadd, hremInv, hsetInv, hcustom, ?_, ?_⟩
  · intro hlen1 id
    unfold removeTemplate
    split_ifs with h1 h2 h3 h4
    · exact ⟨rfl, rfl⟩
    · exact ⟨rfl, rfl⟩
    · exact ⟨rfl, rfl⟩
    · exact absurd hlen1.le h3
    · exact absurd hlen1.le h3
  · intro id hidne hdid hlen
    have hid' : id.isEmpty = false := by
      cases id with
      | nil => exact absurd rfl hidne
      | cons c cs => rfl
    have hdi : d = id := Option.some.inj (hd.symm.trans hdid)
    have hsome : (getTemplateById id st).isSome = true := hdi ▸ hfind
    have htr : (templatesAccess id st).truthy = true := by
      rw [templatesAccess_truthy]
      simp [hsome]
    rw [removeTemplate_success st id hid' htr hlen]
    obtain ⟨q, rest, hq⟩ :=
      List.exists_cons_of_ne_nil (filter_keys_ne_nil st id hnd hlen)
    have hqne : q.1 ≠ id := by
      have hqmem : q ∈ st.templates.filter (fun p => !(p.1 == id)) := by
        rw [hq]
        exact List.mem_cons_self _ _
      have hqp := (List.mem_filter.mp hqmem).2
      simpa using hqp
    refine ⟨q.1, ?_, hqne, ?_⟩
    · rw [if_pos hdid, hq]
      rfl
    · simp only [getTemplateById, isSome_map_snd]
      rw [hq]
      exact head_key_isSome q rest

/-- Witness for C4: the initial registry satisfies the hypotheses, and
removing the default built-in `business` preserves the invariant. -/
theorem registry_ops_preserve_invariant_witness :
    registryInvariant (removeTemplate (("business").data) initialRegistry).1 = true :=
  (registry_ops_preserve_invariant initialRegistry (by decide) (by decide)).2.1
    (("business").data)
